import Mathlib

/-
Verification of the HydroAnalysis hull/hydrofoil model.

Shallow embedding of the Python sources (Frame.py, ForceMoment.py, Hull.py,
HydroFoil.py, Material.py, constants.py, VPP.py) over the real numbers.
Python float arithmetic is modelled by exact real arithmetic; Python float
division, which raises ZeroDivisionError on a zero denominator, is modelled
by `pydiv` returning `Except`.  Iteratively solved quantities with no closed
form (the Schoenherr skin-friction Newton solve, the scipy SLSQP optimizer)
are passed in as parameters and quantified over in the theorems.
-/

noncomputable section

namespace HydroAnalysis

/-! ## constants.py -/

def GRAVITY : ℝ := 9.8066

def WATER_DENSITY : ℝ := 1026

def WATER_KINEMATIC_VISCOSITY : ℝ := 1.2e-6

/-! ## Python primitives -/

/-- Python float division: raises ZeroDivisionError when the denominator is
zero, otherwise returns the quotient. -/
def pydiv (a b : ℝ) : Except String ℝ :=
  if b = 0 then Except.error "ZeroDivisionError" else Except.ok (a / b)

/-- Embedding of numpy's clip: `np.clip(x, lo, hi) = min(max(x, lo), hi)`. -/
def clip (x lo hi : ℝ) : ℝ := min (max x lo) hi

/-! ## Frame.py

A 2D coordinate frame: (x, z) position and y rotation relative to a parent
frame; the chain of parents terminates at `datum` (the Python `Datum` class,
which overrides `origin_in_datum` and `rotation_in_datum` to return zero). -/

inductive Frame where
  | datum : Frame
  | mk (ref : Frame) (posX posZ rotY : ℝ) : Frame

/-- Frame.ref_frame.  The Python `Datum` stores `None` as its reference;
no claim exercises that case, and it is modelled as `datum` itself. -/
def Frame.refFrame : Frame → Frame
  | .datum => .datum
  | .mk ref _ _ _ => ref

/-- Frame.location: the (pos_x, pos_z, rot_y) triple relative to the
reference frame (`Datum` holds (0, 0, 0)). -/
def Frame.location : Frame → ℝ × ℝ × ℝ
  | .datum => (0, 0, 0)
  | .mk _ px pz ry => (px, pz, ry)

/-- Frame.rotation_in_datum: recursive sum of rotations up the parent chain. -/
def Frame.rotationInDatum : Frame → ℝ
  | .datum => 0
  | .mk ref _ _ ry => ref.rotationInDatum + ry

/-- Frame.vector_to_frame: rotates a vector expressed in this frame's
coordinates into the target frame's coordinates. -/
def Frame.vectorToFrame (self : Frame) (x z : ℝ) (frame : Frame) : ℝ × ℝ :=
  let r := self.rotationInDatum - frame.rotationInDatum
  (x * Real.cos r + z * Real.sin r, -x * Real.sin r + z * Real.cos r)

/-- Frame.vector_from_frame: rotates a vector expressed in another frame's
coordinates into this frame's coordinates. -/
def Frame.vectorFromFrame (self : Frame) (x z : ℝ) (frame : Frame) : ℝ × ℝ :=
  let r := self.rotationInDatum - frame.rotationInDatum
  (x * Real.cos r - z * Real.sin r, x * Real.sin r + z * Real.cos r)

/-- Frame.origin_in_datum: resolves the parent origin recursively, then
rotates this frame's local offset into Datum coordinates and adds. -/
def Frame.originInDatum : Frame → ℝ × ℝ
  | .datum => (0, 0)
  | .mk ref px pz _ =>
      let p := ref.originInDatum
      let d := ref.vectorToFrame px pz .datum
      (p.1 + d.1, p.2 + d.2)

/-! ## ForceMoment.py and the MassComponent named tuple -/

structure ForceMoment where
  fx : ℝ
  fz : ℝ
  my : ℝ

structure MassComponent where
  mass : ℝ
  posX : ℝ
  posZ : ℝ

/-! ## Material.py (property pair consumed by structural_mass) -/

structure Material where
  density : ℝ
  yieldStrength : ℝ

/-- Material.Steel from Material.py. -/
def Steel : Material := { density := 7800, yieldStrength := 400e6 }

/-! ## HydroFoil.py -/

inductive DragModel where
  | blasius : DragModel
  | schoenherr : DragModel

structure HydroFoil where
  span : ℝ
  chord : ℝ
  frame : Frame
  oswaldEfficiency : ℝ
  dragModel : DragModel
  thicknessRatio : ℝ
  endPlateFactor : ℝ

/-- HydroFoil._compute_derived_geo: reference area `span * chord`. -/
def HydroFoil.areaRef (f : HydroFoil) : ℝ := f.span * f.chord

/-- HydroFoil.__init__: stores the geometry and the end-plate factor clamped
as `max(2, min(1.0, end_plate_factor))`, with no span/chord range validation
(only `resize` has that), and then calls `_compute_derived_geo`, whose
aspect-ratio division `span ** 2 / area_ref` (with `area_ref = span * chord`)
raises ZeroDivisionError when `span * chord = 0`.  The derived quantities
themselves are modelled as the functions `areaRef`, `aspectRatio` and
`aspectRatioEffective` of the stored fields, so the constructor replays the
division only for its error path. -/
def HydroFoil.init (span chord : ℝ) (frame : Frame) (oswaldEfficiency : ℝ)
    (dragModel : DragModel) (thicknessRatio endPlateFactor : ℝ) :
    Except String HydroFoil := do
  let f : HydroFoil :=
    { span := span, chord := chord, frame := frame,
      oswaldEfficiency := oswaldEfficiency, dragModel := dragModel,
      thicknessRatio := thicknessRatio,
      endPlateFactor := max 2 (min 1 endPlateFactor) }
  let _ ← pydiv (span ^ 2) (span * chord)
  return f

/-- HydroFoil._compute_derived_geo: aspect ratio `span^2 / area_ref`. -/
def HydroFoil.aspectRatio (f : HydroFoil) : ℝ := f.span ^ 2 / f.areaRef

/-- HydroFoil._compute_derived_geo: effective aspect ratio scaled by the
end-plate factor. -/
def HydroFoil.aspectRatioEffective (f : HydroFoil) : ℝ :=
  f.aspectRatio * f.endPlateFactor

/-- HydroFoil.set_location: replace the frame by a new one with the same
reference frame and the given location. -/
def HydroFoil.setLocation (f : HydroFoil) (posX posZ rotY : ℝ) : HydroFoil :=
  { f with frame := Frame.mk f.frame.refFrame posX posZ rotY }

/-- HydroFoil.get_location. -/
def HydroFoil.getLocation (f : HydroFoil) : ℝ × ℝ × ℝ := f.frame.location

/-- HydroFoil.resize: raises ValueError on non-positive span or chord,
otherwise stores the new geometry and reruns `_compute_derived_geo` (whose
aspect-ratio division cannot fail here, the validated span and chord being
positive). -/
def HydroFoil.resize (f : HydroFoil) (span chord thicknessRatio : ℝ) :
    Except String HydroFoil :=
  if span ≤ 0 then Except.error "Span must be positive"
  else if chord ≤ 0 then Except.error "Chord must be positive"
  else do
    let _ ← pydiv (span ^ 2) (span * chord)
    return { f with span := span, chord := chord,
                    thicknessRatio := thicknessRatio }

/-- HydroFoil._lift_coefficient: finite-wing corrected lift slope times the
angle of attack. -/
def HydroFoil.liftCoefficient (f : HydroFoil) (angleOfAttack : ℝ) : ℝ :=
  let dCl0 := 2 * Real.pi
  let dCl := dCl0 /
    (1 + dCl0 / (Real.pi * f.aspectRatioEffective * f.oswaldEfficiency))
  dCl * angleOfAttack

/-- HydroFoil._compute_lift: `0.5 * Cl * rho * area_ref * speed^2`. -/
def HydroFoil.computeLift (f : HydroFoil) (angleOfAttack speed : ℝ) : ℝ :=
  0.5 * f.liftCoefficient angleOfAttack * WATER_DENSITY * f.areaRef * speed ^ 2

/-- HydroFoil._compute_drag: skin friction plus induced drag, times dynamic
pressure and area.  `cdSF` stands for `self._cd_skin_friction` as produced by
the drag-model dispatch (the Blasius closed form or the iterative Schoenherr
Newton solve, which has no closed form); it is passed as a parameter. -/
def HydroFoil.computeDrag (f : HydroFoil) (angleOfAttack speed cdSF : ℝ) : ℝ :=
  let cdInduced := f.liftCoefficient angleOfAttack ^ 2 /
    (Real.pi * f.aspectRatioEffective * f.oswaldEfficiency)
  0.5 * (cdSF + cdInduced) * WATER_DENSITY * f.areaRef * speed ^ 2

/-- HydroFoil._compute_moment: flat plate quarter-chord moment,
`cm = pi * alpha / 2`, `my = 0.5 * cm * chord * rho * area_ref * speed^2`. -/
def HydroFoil.computeMoment (f : HydroFoil) (angleOfAttack speed : ℝ) : ℝ :=
  let cm := Real.pi * angleOfAttack / 2
  0.5 * cm * f.chord * WATER_DENSITY * f.areaRef * speed ^ 2

/-- HydroFoil.force_moment: submersion-scaled lift and drag rotated from the
aerodynamic frame into the foil frame, plus the (unscaled) quarter-chord
moment.  The logging-only fields `_LD` (a ratio that numpy evaluates to NaN
without raising when both forces are zero) and the cavitation load-density
channel are not modelled; they do not affect the returned wrench. -/
def HydroFoil.forceMoment (f : HydroFoil) (speed cdSF : ℝ) : ForceMoment :=
  let submersionForceScaling := clip (-10 * (f.frame.originInDatum).2) 0 1
  let angleOfAttack := -f.frame.rotationInDatum
  let aeroFrame := Frame.mk f.frame 0 0 (angleOfAttack - Real.pi / 2)
  let lift := f.computeLift angleOfAttack speed * submersionForceScaling
  let drag := f.computeDrag angleOfAttack speed cdSF * submersionForceScaling
  let fxz := aeroFrame.vectorToFrame lift drag f.frame
  { fx := fxz.1, fz := fxz.2, my := f.computeMoment angleOfAttack speed }

/-- HydroFoil.structural_mass, lines 144-148: the discriminant
`spar_height^4 - 12 * Ixx_req` under the fourth root in the spar wall
thickness formula. -/
def HydroFoil.sparDiscriminant (f : HydroFoil) (maxAngleOfAttack maxSpeed : ℝ)
    (material : Material) (fos shareFrac cdSF : ℝ) : ℝ :=
  let loc := f.getLocation
  let f1 := f.setLocation loc.1 loc.2.1 (-maxAngleOfAttack)
  let maxForceMoment := f1.forceMoment maxSpeed cdSF
  let bendingMoment :=
    Real.sqrt (maxForceMoment.fx ^ 2 + maxForceMoment.fz ^ 2) * f1.span / 2
  let sparHeight := f1.thicknessRatio * f1.chord
  let IxxReq := bendingMoment * sparHeight * 0.5 * fos * (1 - shareFrac) /
    material.yieldStrength
  sparHeight ^ 4 - IxxReq * 12

/-- HydroFoil.structural_mass: snapshots the location, overrides the trim to
`-max_angle_of_attack`, sizes the spar from the worst-case bending moment and
restores the location before returning.  In Python the unrealizable case is
detected as `np.isnan(thickness_req)`; since `x ** 0.25` of a float is NaN
exactly when `x < 0`, that check is modelled as `discriminant < 0`.  On that
path Python raises *before* the frame is restored, so the returned foil state
keeps the overridden trim angle.  The result is the pair of the Python return
value (or raised error) and the foil state after the call. -/
def HydroFoil.structuralMass (f : HydroFoil) (maxAngleOfAttack maxSpeed : ℝ)
    (material : Material) (fos scalingFactor shareFrac cdSF : ℝ) :
    Except String MassComponent × HydroFoil :=
  let loc := f.getLocation
  let f1 := f.setLocation loc.1 loc.2.1 (-maxAngleOfAttack)
  let maxForceMoment := f1.forceMoment maxSpeed cdSF
  let bendingMoment :=
    Real.sqrt (maxForceMoment.fx ^ 2 + maxForceMoment.fz ^ 2) * f1.span / 2
  let sparHeight := f1.thicknessRatio * f1.chord
  let IxxReq := bendingMoment * sparHeight * 0.5 * fos * (1 - shareFrac) /
    material.yieldStrength
  let disc := sparHeight ^ 4 - IxxReq * 12
  if disc < 0 then
    (Except.error "Maximum Foil Load Exceeds Geometric Strength Limits", f1)
  else
    let thicknessReq := sparHeight - disc ^ ((1 : ℝ) / 4)
    let structuralMass := thicknessReq * sparHeight * 4 * f1.span *
      material.density * scalingFactor
    (Except.ok ⟨structuralMass, -f1.chord / 4, 0⟩,
      f1.setLocation loc.1 loc.2.1 loc.2.2)

/-! ## Hull.py -/

structure Hull where
  length : ℝ
  beam : ℝ
  height : ℝ
  bowFraction : ℝ
  chineFraction : ℝ
  frame : Frame
  draft : ℝ

/-- Hull.__init__: stores the geometry, initializes the frame at one third
of the height submerged and the `_draft` logging channel at 0, and raises
ValueError when the chine or bow fraction is outside [0, 1]. -/
def Hull.init (length beam height bowFraction chineFraction : ℝ) :
    Except String Hull :=
  if 1 < chineFraction ∨ chineFraction < 0 then
    Except.error "chine fraction must be in range [0, 1]"
  else if 1 < bowFraction ∨ bowFraction < 0 then
    Except.error "bow fraction must be in range [0, 1]"
  else
    Except.ok { length := length, beam := beam, height := height,
                bowFraction := bowFraction, chineFraction := chineFraction,
                frame := Frame.mk .datum 0 (-height / 3) 0, draft := 0 }

/-- Hull derived field `_v_depth = chine_fraction * height`. -/
def Hull.vDepth (h : Hull) : ℝ := h.chineFraction * h.height

/-- Hull.set_state: assigns a fresh frame relative to Datum and stores
`_draft = max(0, -origin_z_in_datum)`. -/
def Hull.setState (h : Hull) (sink trim : ℝ) : Hull :=
  let fr := Frame.mk .datum 0 sink trim
  { h with frame := fr, draft := max 0 (-1 * (fr.originInDatum).2) }

/-- Hull._waterplane_beam: full beam once the v-bottom is immersed, linearly
narrowing with draft below the chine depth. -/
def Hull.waterplaneBeam (h : Hull) : ℝ :=
  if h.vDepth ≤ h.draft then h.beam else h.beam * h.draft / h.vDepth

/-- Hull._submerged_cross_section: triangular v component, plus the
rectangular component above the chine when the draft exceeds the v depth. -/
def Hull.submergedCrossSection (h : Hull) : ℝ :=
  let crossSection := 0.5 * h.waterplaneBeam * min h.draft h.vDepth
  if h.vDepth < h.draft then
    crossSection + (h.draft - h.vDepth) * h.beam
  else crossSection

/-- Hull._compute_wetted_surface_area. -/
def Hull.wettedArea (h : Hull) : ℝ :=
  if |h.draft| < 1e-6 then 0
  else
    let vAngledLength :=
      Real.sqrt (min h.vDepth h.draft ^ 2 + (h.waterplaneBeam / 2) ^ 2)
    let wettedV := 2 * vAngledLength * h.length * (1 - 0.5 * h.bowFraction)
    if h.vDepth < h.draft then
      let perimeterBow :=
        2 * Real.sqrt ((h.length * h.bowFraction) ^ 2 + (0.5 * h.beam) ^ 2)
      let perimeter := perimeterBow + 2 * h.length * (1 - h.bowFraction) + h.beam
      wettedV + perimeter * (h.draft - h.vDepth)
    else wettedV

/-- Hull._compute_displaced_volume: submerged cross section swept along the
length, tapered at the bow by halving the bow-fraction contribution. -/
def Hull.displacedVolume (h : Hull) : ℝ :=
  h.submergedCrossSection * h.length * (1 - 0.5 * h.bowFraction)

/-- Hull._waterplane_area. -/
def Hull.waterplaneArea (h : Hull) : ℝ :=
  h.waterplaneBeam * h.length * (1 - 0.5 * h.bowFraction)

/-- Hull._compute_buoyancy: displaced volume times water density times
gravity. -/
def Hull.buoyancy (h : Hull) : ℝ :=
  h.displacedVolume * WATER_DENSITY * GRAVITY

/-- Hull coefficients produced by `_update_geometric_parameters`. -/
structure HullCoeffs where
  wettedArea : ℝ
  displacedVolume : ℝ
  Cp : ℝ
  Cm : ℝ
  Cwp : ℝ

/-- Hull._update_geometric_parameters: wetted area, displaced volume and the
three hull form coefficients.  The coefficient formulas are Python float
divisions, and at zero draft both `Cp = V / (Am * L)` and `Cm = Am / (B * d)`
divide by zero, so the update is fallible. -/
def Hull.updateGeometricParameters (h : Hull) : Except String HullCoeffs := do
  let wa := h.wettedArea
  let dv := h.displacedVolume
  let cp ← pydiv dv (h.submergedCrossSection * h.length)
  let cm ← pydiv h.submergedCrossSection (h.beam * h.draft)
  let cwp ← pydiv h.waterplaneArea (h.beam * h.length)
  return ⟨wa, dv, cp, cm, cwp⟩

/-- Hull._compute_wave_resistance: Holtrop-Mennen empirical regression plus a
transom-immersion term, transcribed from the source with `lcb = 0`.  Real
division is total here (no claim exercises a zero denominator on this path:
it is only reached when the geometric update above has succeeded). -/
def Hull.waveResistance (h : Hull) (speed : ℝ) (c : HullCoeffs) : ℝ :=
  let Fn := speed / Real.sqrt (GRAVITY * h.length)
  let aspectRatio := h.beam / h.length
  let draft := h.draft
  let lcb : ℝ := 0
  let c7 := if aspectRatio < 0.11 then 0.229577 * aspectRatio ^ ((1 : ℝ) / 3)
    else if aspectRatio < 0.25 then aspectRatio
    else 0.5 - 0.0625 / aspectRatio
  let L_R := h.length * (1 - c.Cp + 0.06 * c.Cp * lcb / (4 * c.Cp - 1))
  let iE := 1 + 89 * Real.exp (-((1 / aspectRatio) ^ (0.80856 : ℝ)) *
    ((1 - c.Cwp) ^ (0.30484 : ℝ)) * ((1 - c.Cp - 0.0225 * lcb) ^ (0.6367 : ℝ)) *
    ((L_R / h.beam) ^ (0.34574 : ℝ)) *
    ((100 * c.displacedVolume / h.length ^ 3) ^ (0.16302 : ℝ)))
  let c1 := 2223105 * c7 ^ (3.78613 : ℝ) * (draft / h.beam) ^ (1.07961 : ℝ) *
    (90 - iE) ^ (-1.37565 : ℝ)
  let c2 : ℝ := 1
  let immersedTransomArea := h.submergedCrossSection * 0.5
  let c5 := 1 - 0.8 * immersedTransomArea / (h.beam * draft * c.Cm)
  let lambd := if 1 / aspectRatio < 12 then 1.446 * c.Cp - 0.03 / aspectRatio
    else 1.446 * c.Cp - 0.36
  let c16 := if c.Cp < 0.8 then
      8.07981 * c.Cp - 13.8673 * c.Cp ^ 2 + 6.984388 * c.Cp ^ 3
    else 1.73014 - 0.7067 * c.Cp
  let m1 := 0.0140407 * h.length / draft -
    1.75254 * (c.displacedVolume ^ ((1 : ℝ) / 3) / h.length) -
    4.79323 * aspectRatio - c16
  let c15 := if h.length ^ 3 / c.displacedVolume < 512 then (-1.69385 : ℝ)
    else if h.length ^ 3 / c.displacedVolume < 1727 then
      -1.69385 + (h.length / c.displacedVolume ^ ((1 : ℝ) / 3) - 8) / 2.36
    else 0
  let m2 := c15 * c.Cp ^ 2 * Real.exp (-0.1 * Fn ^ (-2 : ℝ))
  let waveRes := c1 * c2 * c5 * c.displacedVolume * WATER_DENSITY * GRAVITY *
    Real.exp (m1 * Fn ^ (-0.9 : ℝ) + m2 * Real.cos (lambd * Fn ^ (-2 : ℝ)))
  let FnT := speed /
    Real.sqrt (2 * GRAVITY * immersedTransomArea / (h.beam * (1 + c.Cwp)))
  let c6 := max 0 (0.2 * (1 - 0.2 * FnT))
  let transomResistance :=
    0.5 * WATER_DENSITY * (speed * 2) * immersedTransomArea * c6
  waveRes + transomResistance

/-- Hull.force_moment: runs the geometric update (which can raise
ZeroDivisionError at zero draft), then drag (skin friction plus wave
resistance) and buoyancy, and returns the wrench `(-drag, buoyancy, 0)` in
hull coordinates.  `cdSF` stands for the Schoenherr skin-friction coefficient
produced by the iterative Newton solve in `_skin_friction_coeff`. -/
def Hull.forceMoment (h : Hull) (speed cdSF : ℝ) :
    Except String ForceMoment := do
  let c ← h.updateGeometricParameters
  let frictionDrag := 0.5 * cdSF * WATER_DENSITY * c.wettedArea * speed ^ 2
  let waveDrag := h.waveResistance speed c
  let drag := frictionDrag + waveDrag
  let buoyancy := c.displacedVolume * WATER_DENSITY * GRAVITY
  return ⟨-drag, buoyancy, 0⟩

/-! ## VPP.py (foil angle-of-attack solve) -/

/-- VPP.objective_foil_aoa: sets the foil trim to `-x`, evaluates the wrench,
projects the force onto the world vertical axis and returns the kN-scale
residual `|lift - lift_desired| / 1e3`, together with the mutated foil. -/
def objectiveFoilAoa (x : ℝ) (hydrofoil : HydroFoil)
    (speed liftDesired cdSF : ℝ) : ℝ × HydroFoil :=
  let loc := hydrofoil.getLocation
  let f1 := hydrofoil.setLocation loc.1 loc.2.1 (-x)
  let fm := f1.forceMoment speed cdSF
  let lift := fm.fx * Real.sin x + fm.fz * Real.cos x
  (|lift - liftDesired| / 1e3, f1)

/-- VPP.run_foil_aoa_vpp: the scipy SLSQP call is external code with no
closed form, modelled by its reported outcome (success flag `optSuccess` and
minimizer `optX`).  On non-convergence the solver error is raised; otherwise
the objective is re-evaluated at the minimizer and the solve fails when that
cost exceeds 0.1 kN.  The Python message for the second failure interpolates
the unmet lift target (`f"... Lift target {lift_target / 1000:.2f} kN"`);
string formatting is not modelled, so a fixed message stands for it. -/
def runFoilAoaVpp (hydrofoil : HydroFoil) (liftTarget speed cdSF : ℝ)
    (optSuccess : Bool) (optX : ℝ) : Except String ℝ :=
  if optSuccess = false then Except.error "VPP Foil AoA Failed to converge"
  else
    let cost := (objectiveFoilAoa optX hydrofoil speed liftTarget cdSF).1
    if 0.1 < cost then
      Except.error "VPP Foil AoA Failed to achieve Lift target"
    else Except.ok optX

/-! ## Derived and concrete objects used in the theorems -/

/-- HydroFoil.force_moment lines 105-115 evaluated with the submersion
scaling factor equal to one: the unscaled lift/drag model (the force the foil
produces at 100 mm depth or more). -/
def HydroFoil.unscaledForce (f : HydroFoil) (speed cdSF : ℝ) : ℝ × ℝ :=
  let angleOfAttack := -f.frame.rotationInDatum
  let aeroFrame := Frame.mk f.frame 0 0 (angleOfAttack - Real.pi / 2)
  aeroFrame.vectorToFrame (f.computeLift angleOfAttack speed)
    (f.computeDrag angleOfAttack speed cdSF) f.frame

/-- Concrete foil one meter above the water surface (origin z = +1 in Datum),
trimmed 0.3 rad, unit span and chord: the value of
`HydroFoil.init 1 1 (Frame.mk .datum 0 1 0.3) 0.7 .schoenherr 0.1 1`. -/
def exampleFoilAbove : HydroFoil :=
  { span := 1, chord := 1, frame := Frame.mk .datum 0 1 0.3,
    oswaldEfficiency := 0.7, dragModel := DragModel.schoenherr,
    thicknessRatio := 0.1, endPlateFactor := max 2 (min 1 1) }

/-- Concrete foil one meter below the water surface (origin z = -1 in Datum),
trimmed 0.3 rad, unit span and chord: the value of
`HydroFoil.init 1 1 (Frame.mk .datum 0 (-1) 0.3) 0.7 .schoenherr 0.1 1`. -/
def exampleFoilDeep : HydroFoil :=
  { span := 1, chord := 1, frame := Frame.mk .datum 0 (-1) 0.3,
    oswaldEfficiency := 0.7, dragModel := DragModel.schoenherr,
    thicknessRatio := 0.1, endPlateFactor := max 2 (min 1 1) }

/-- Concrete foil with span -1 and chord -1, as stored when the constructor
is (wrongly) given negative dimensions: the value of
`HydroFoil.init (-1) (-1) Frame.datum 0.7 .schoenherr 0.1 1`. -/
def exampleFoilNegative : HydroFoil :=
  { span := -1, chord := -1, frame := Frame.datum,
    oswaldEfficiency := 0.7, dragModel := DragModel.schoenherr,
    thicknessRatio := 0.1, endPlateFactor := max 2 (min 1 1) }

/-- Concrete foil with end-plate-factor argument 5: the value of
`HydroFoil.init 2 0.5 Frame.datum 0.7 .schoenherr 0.1 5`. -/
def exampleFoilClamp : HydroFoil :=
  { span := 2, chord := 0.5, frame := Frame.datum,
    oswaldEfficiency := 0.7, dragModel := DragModel.schoenherr,
    thicknessRatio := 0.1, endPlateFactor := max 2 (min 1 5) }

/-- Material with unit density and unit yield strength: weak enough to drive
the spar thickness discriminant negative at moderate loads. -/
def weakMaterial : Material := { density := 1, yieldStrength := 1 }

/-- Concrete hull with the spec's end-to-end scenario geometry. -/
def exampleHull : Hull :=
  { length := 35.5, beam := 7.9, height := 3, bowFraction := 0.2,
    chineFraction := 0.1, frame := Frame.mk .datum 0 (-1) 0, draft := 0 }

/-! ## Helper lemmas -/

/-- A frame hung directly off the datum has its stated position as origin. -/
theorem Frame.originInDatum_mk_datum (px pz ry : ℝ) :
    (Frame.mk .datum px pz ry).originInDatum = (px, pz) := by
  simp [Frame.originInDatum, Frame.vectorToFrame, Frame.rotationInDatum]

/-- Clamping `min 1 e` below 2 always yields 2. -/
theorem max_two_min_one (e : ℝ) : max 2 (min 1 e) = 2 :=
  max_eq_left ((min_le_left 1 e).trans (by norm_num))

/-! ## Claims -/

/-- C9: every foil the constructor returns has the end-plate factor
`max(2, min(1.0, e))`, which equals 2 for every argument `e`, so its
effective aspect ratio is always exactly twice its geometric aspect ratio. -/
theorem end_plate_factor_always_two (span chord : ℝ) (frame : Frame)
    (oswald : ℝ) (dm : DragModel) (tr e : ℝ) (f : HydroFoil)
    (hinit : HydroFoil.init span chord frame oswald dm tr e = Except.ok f) :
    f.endPlateFactor = 2 ∧
    f.aspectRatioEffective = 2 * f.aspectRatio := by
  simp only [HydroFoil.init, pydiv] at hinit
  split at hinit
  · simp [Except.instMonad, Except.bind] at hinit
  · simp only [Except.instMonad, Except.bind, pure, Except.pure,
      Except.ok.injEq] at hinit
    subst hinit
    refine ⟨max_two_min_one e, ?_⟩
    simp only [HydroFoil.aspectRatioEffective, max_two_min_one e]
    ring

/-- C9 witness: constructing with end-plate-factor argument 5 succeeds and
stores factor 2, doubling the aspect ratio. -/
theorem end_plate_factor_always_two_witness :
    HydroFoil.init 2 0.5 Frame.datum 0.7 DragModel.schoenherr 0.1 5 =
      Except.ok exampleFoilClamp ∧
    (exampleFoilClamp.endPlateFactor = 2 ∧
      exampleFoilClamp.aspectRatioEffective =
        2 * exampleFoilClamp.aspectRatio) := by
  have hinit : HydroFoil.init 2 0.5 Frame.datum 0.7 DragModel.schoenherr
      0.1 5 = Except.ok exampleFoilClamp := by
    unfold HydroFoil.init pydiv
    rw [if_neg (by norm_num : ¬((2 : ℝ) * 0.5 = 0))]
    rfl
  exact ⟨hinit, end_plate_factor_always_two 2 0.5 Frame.datum 0.7
    DragModel.schoenherr 0.1 5 exampleFoilClamp hinit⟩

/-- C4: for any two frames whose parent chains terminate at Datum and any
vector, `vector_from_frame` undoes `vector_to_frame` for the same frame pair
exactly (hence in particular within 1e-9). -/
theorem frame_vector_roundtrip (A B : Frame) (x z : ℝ) :
    A.vectorFromFrame (A.vectorToFrame x z B).1 (A.vectorToFrame x z B).2 B =
      (x, z) := by
  have h := Real.sin_sq_add_cos_sq (A.rotationInDatum - B.rotationInDatum)
  simp only [Frame.vectorToFrame, Frame.vectorFromFrame, Prod.mk.injEq]
  constructor
  · linear_combination x * h
  · linear_combination z * h

/-- C3 counterexample: constructing a HydroFoil with span = chord = -1 does
not raise any error; the constructor returns a foil storing the non-positive
values unchanged, so the claimed construction-time ValueError does not
exist. -/
theorem hydrofoil_init_accepts_nonpositive_span :
    HydroFoil.init (-1) (-1) Frame.datum 0.7 DragModel.schoenherr 0.1 1 =
      Except.ok exampleFoilNegative ∧
    exampleFoilNegative.span = -1 ∧ exampleFoilNegative.chord = -1 := by
  refine ⟨?_, rfl, rfl⟩
  unfold HydroFoil.init pydiv
  rw [if_neg (by norm_num : ¬((-1 : ℝ) * (-1) = 0))]
  rfl

/-- C3 amended: the constructor performs no span/chord range validation: it
succeeds for every span and chord with span * chord ≠ 0, storing them
unchanged, and raises ZeroDivisionError (from the aspect-ratio division in
_compute_derived_geo) exactly when span * chord = 0; the ValueError for
span ≤ 0 or chord ≤ 0 is raised by resize, which succeeds exactly when
span > 0 and chord > 0. -/
theorem hydrofoil_resize_validates_span_chord (f : HydroFoil)
    (span chord tr : ℝ) (frame : Frame) (oswald : ℝ) (dm : DragModel)
    (e : ℝ) :
    ((f.resize span chord tr).isOk = true ↔ 0 < span ∧ 0 < chord) ∧
    ((HydroFoil.init span chord frame oswald dm tr e).isOk = true ↔
      span * chord ≠ 0) := by
  constructor
  · unfold HydroFoil.resize
    rcases le_or_lt span 0 with hs | hs
    · rw [if_pos hs]
      simp only [Except.isOk, Except.toBool, Bool.false_eq_true, false_iff]
      exact fun h => absurd h.1 (not_lt.mpr hs)
    · rcases le_or_lt chord 0 with hc | hc
      · rw [if_neg (not_le.mpr hs), if_pos hc]
        simp only [Except.isOk, Except.toBool, Bool.false_eq_true, false_iff]
        exact fun h => absurd h.2 (not_lt.mpr hc)
      · rw [if_neg (not_le.mpr hs), if_neg (not_le.mpr hc)]
        have hne : span * chord ≠ 0 := ne_of_gt (mul_pos hs hc)
        unfold pydiv
        rw [if_neg hne]
        exact ⟨fun _ => ⟨hs, hc⟩, fun _ => rfl⟩
  · unfold HydroFoil.init pydiv
    by_cases h : span * chord = 0
    · rw [if_pos h]
      constructor
      · intro hh
        simp [Except.instMonad, Except.bind, Except.isOk,
          Except.toBool] at hh
      · intro hne
        exact absurd h hne
    · rw [if_neg h]
      exact ⟨fun _ => h, fun _ => rfl⟩

/-- Force x component of the foil wrench: the submersion scaling factors out
of the aero-frame rotation by linearity. -/
theorem forceMoment_fx_eq (f : HydroFoil) (speed cdSF : ℝ) :
    (f.forceMoment speed cdSF).fx =
      clip (-10 * (f.frame.originInDatum).2) 0 1 *
        (f.unscaledForce speed cdSF).1 := by
  simp only [HydroFoil.forceMoment, HydroFoil.unscaledForce, Frame.vectorToFrame]
  ring

/-- Force z component of the foil wrench: the submersion scaling factors out
of the aero-frame rotation by linearity. -/
theorem forceMoment_fz_eq (f : HydroFoil) (speed cdSF : ℝ) :
    (f.forceMoment speed cdSF).fz =
      clip (-10 * (f.frame.originInDatum).2) 0 1 *
        (f.unscaledForce speed cdSF).2 := by
  simp only [HydroFoil.forceMoment, HydroFoil.unscaledForce, Frame.vectorToFrame]
  ring

/-- Moment component of the foil wrench, written out. -/
theorem forceMoment_my_eq (f : HydroFoil) (speed cdSF : ℝ) :
    (f.forceMoment speed cdSF).my =
      0.5 * (Real.pi * -f.frame.rotationInDatum / 2) * f.chord *
        WATER_DENSITY * f.areaRef * speed ^ 2 := rfl

/-- At 100 mm depth or more the submersion factor saturates at one. -/
theorem clip_saturated_deep (z : ℝ) (hz : z ≤ -0.1) :
    clip (-10 * z) 0 1 = 1 := by
  unfold clip
  rw [max_eq_left (by linarith), min_eq_right (by linarith)]

/-- At or above the free surface the submersion factor is zero. -/
theorem clip_zero_surface (z : ℝ) (hz : 0 ≤ z) :
    clip (-10 * z) 0 1 = 0 := by
  unfold clip
  rw [max_eq_right (by linarith), min_eq_left (by norm_num)]

/-- C6: the foil force components equal `clip(-10 z, 0, 1)` times the
unscaled lift/drag model, where z is the foil origin's z coordinate in Datum
(so depth below the surface is -z); at depth at least 0.1 m (z ≤ -0.1) the
force equals the unscaled model, and at or above the surface (z ≥ 0, depth
≤ 0) the force components are zero. -/
theorem foil_submersion_force_scaling (f : HydroFoil) (speed cdSF : ℝ) :
    ((f.forceMoment speed cdSF).fx =
        clip (-10 * (f.frame.originInDatum).2) 0 1 *
          (f.unscaledForce speed cdSF).1 ∧
      (f.forceMoment speed cdSF).fz =
        clip (-10 * (f.frame.originInDatum).2) 0 1 *
          (f.unscaledForce speed cdSF).2) ∧
    ((f.frame.originInDatum).2 ≤ -0.1 →
      (f.forceMoment speed cdSF).fx = (f.unscaledForce speed cdSF).1 ∧
      (f.forceMoment speed cdSF).fz = (f.unscaledForce speed cdSF).2) ∧
    (0 ≤ (f.frame.originInDatum).2 →
      (f.forceMoment speed cdSF).fx = 0 ∧
      (f.forceMoment speed cdSF).fz = 0) := by
  refine ⟨⟨forceMoment_fx_eq f speed cdSF, forceMoment_fz_eq f speed cdSF⟩,
    fun hz => ?_, fun hz => ?_⟩
  · rw [forceMoment_fx_eq, forceMoment_fz_eq, clip_saturated_deep _ hz,
      one_mul, one_mul]
    exact ⟨rfl, rfl⟩
  · rw [forceMoment_fx_eq, forceMoment_fz_eq, clip_zero_surface _ hz,
      zero_mul, zero_mul]
    exact ⟨rfl, rfl⟩

/-- C6 witness: the foil one meter below the surface produces exactly the
unscaled forces. -/
theorem foil_submersion_force_scaling_witness :
    (exampleFoilDeep.frame.originInDatum).2 ≤ -0.1 ∧
    ((exampleFoilDeep.forceMoment 5 0.003).fx =
        (exampleFoilDeep.unscaledForce 5 0.003).1 ∧
      (exampleFoilDeep.forceMoment 5 0.003).fz =
        (exampleFoilDeep.unscaledForce 5 0.003).2) := by
  have hz : (exampleFoilDeep.frame.originInDatum).2 ≤ -0.1 := by
    simp only [exampleFoilDeep, Frame.originInDatum_mk_datum]
    norm_num
  exact ⟨hz, (foil_submersion_force_scaling exampleFoilDeep 5 0.003).2.1 hz⟩

/-- C10: the submersion scaling applies only to lift and drag, never to the
pitching moment: a foil at or above the surface with nonzero trim and
positive speed returns zero force components but the full unscaled
quarter-chord moment `0.5 * (pi * alpha / 2) * chord * rho * area * V^2`,
which is nonzero. -/
theorem foil_surface_moment_unscaled (f : HydroFoil) (speed cdSF : ℝ)
    (hsurf : 0 ≤ (f.frame.originInDatum).2)
    (haoa : f.frame.rotationInDatum ≠ 0) (hspeed : 0 < speed)
    (hspan : 0 < f.span) (hchord : 0 < f.chord) :
    (f.forceMoment speed cdSF).fx = 0 ∧ (f.forceMoment speed cdSF).fz = 0 ∧
    (f.forceMoment speed cdSF).my =
      0.5 * (Real.pi * -f.frame.rotationInDatum / 2) * f.chord *
        WATER_DENSITY * f.areaRef * speed ^ 2 ∧
    (f.forceMoment speed cdSF).my ≠ 0 := by
  refine ⟨?_, ?_, forceMoment_my_eq f speed cdSF, ?_⟩
  · rw [forceMoment_fx_eq, clip_zero_surface _ hsurf, zero_mul]
  · rw [forceMoment_fz_eq, clip_zero_surface _ hsurf, zero_mul]
  · rw [forceMoment_my_eq]
    have harea : f.areaRef ≠ 0 := by
      unfold HydroFoil.areaRef
      exact ne_of_gt (mul_pos hspan hchord)
    have hc1 : Real.pi * -f.frame.rotationInDatum / 2 ≠ 0 :=
      div_ne_zero (mul_ne_zero Real.pi_ne_zero (neg_ne_zero.mpr haoa))
        two_ne_zero
    have hρ : (WATER_DENSITY : ℝ) ≠ 0 := by norm_num [WATER_DENSITY]
    exact mul_ne_zero (mul_ne_zero (mul_ne_zero (mul_ne_zero
      (mul_ne_zero (by norm_num) hc1) (ne_of_gt hchord)) hρ) harea)
      (pow_ne_zero 2 (ne_of_gt hspeed))

/-- C10 witness: the foil one meter above the surface with 0.3 rad trim at
speed 5 m/s has zero force components and a nonzero moment. -/
theorem foil_surface_moment_unscaled_witness :
    (0 ≤ (exampleFoilAbove.frame.originInDatum).2 ∧
      exampleFoilAbove.frame.rotationInDatum ≠ 0) ∧
    (exampleFoilAbove.forceMoment 5 0.003).fx = 0 ∧
    (exampleFoilAbove.forceMoment 5 0.003).fz = 0 ∧
    (exampleFoilAbove.forceMoment 5 0.003).my ≠ 0 := by
  have hz : 0 ≤ (exampleFoilAbove.frame.originInDatum).2 := by
    simp only [exampleFoilAbove, Frame.originInDatum_mk_datum]
    norm_num
  have hrot : exampleFoilAbove.frame.rotationInDatum ≠ 0 := by
    simp only [exampleFoilAbove, Frame.rotationInDatum]
    norm_num
  have h := foil_surface_moment_unscaled exampleFoilAbove 5 0.003 hz hrot
    (by norm_num) (by norm_num [exampleFoilAbove])
    (by norm_num [exampleFoilAbove])
  exact ⟨⟨hz, hrot⟩, h.1, h.2.1, h.2.2.2⟩

/-- C8: structural_mass raises the foil structural error exactly when the
spar thickness discriminant `spar_height^4 - 12 * Ixx_req` is negative (the
case in which numpy's fourth root is NaN); for a nonnegative discriminant it
returns a mass component. -/
theorem structural_mass_error_iff_negative_discriminant (f : HydroFoil)
    (maxAoA maxSpeed : ℝ) (material : Material)
    (fos scalingFactor shareFrac cdSF : ℝ) :
    (f.structuralMass maxAoA maxSpeed material fos scalingFactor shareFrac
        cdSF).1.isOk = true ↔
      0 ≤ f.sparDiscriminant maxAoA maxSpeed material fos shareFrac cdSF := by
  simp only [HydroFoil.structuralMass, HydroFoil.sparDiscriminant]
  split
  · rename_i h
    simp only [Except.isOk, Except.toBool, Bool.false_eq_true, false_iff]
    exact not_le.mpr h
  · rename_i h
    exact ⟨fun _ => not_lt.mp h, fun _ => rfl⟩

/-- C5 counterexample: with the optimizer reporting success at x = 0, the
solve on a foil held above the surface with lift target -100 N has residual
exactly 0.1 kN, which is not strictly below 0.1 kN, yet the solver returns
the angle instead of raising. -/
theorem foil_aoa_vpp_boundary_residual_ok :
    runFoilAoaVpp exampleFoilAbove (-100) 5 1 true 0 = Except.ok 0 ∧
    ¬ (objectiveFoilAoa 0 exampleFoilAbove 5 (-100) 1).1 < 0.1 := by
  have hz : 0 ≤ ((exampleFoilAbove.setLocation 0 1 (-0)).frame.originInDatum).2 := by
    norm_num [exampleFoilAbove, HydroFoil.setLocation,
      Frame.refFrame, Frame.originInDatum_mk_datum]
  have hfx := forceMoment_fx_eq (exampleFoilAbove.setLocation 0 1 (-0)) 5 1
  rw [clip_zero_surface _ hz, zero_mul] at hfx
  have hfz := forceMoment_fz_eq (exampleFoilAbove.setLocation 0 1 (-0)) 5 1
  rw [clip_zero_surface _ hz, zero_mul] at hfz
  have hcost : (objectiveFoilAoa 0 exampleFoilAbove 5 (-100) 1).1 = 0.1 := by
    show |((exampleFoilAbove.setLocation 0 1 (-0)).forceMoment 5 1).fx *
        Real.sin 0 +
      ((exampleFoilAbove.setLocation 0 1 (-0)).forceMoment 5 1).fz *
        Real.cos 0 - (-100)| / 1e3 = 0.1
    rw [hfx, hfz]
    norm_num
  refine ⟨?_, by rw [hcost]; exact lt_irrefl _⟩
  unfold runFoilAoaVpp
  rw [if_neg (by simp)]
  simp only [hcost]
  rw [if_neg (lt_irrefl (0.1 : ℝ))]

/-- C5 amended: the foil angle-of-attack solve returns the optimizer's angle
exactly when the optimizer converged and the final residual is at most 0.1 kN
(the boundary value 0.1 included); it raises the solver error when the
optimizer failed or the residual exceeds 0.1 kN, in the latter case naming
the unmet lift target. -/
theorem foil_aoa_vpp_success_iff (hydrofoil : HydroFoil)
    (liftTarget speed cdSF optX : ℝ) (optSuccess : Bool) :
    (runFoilAoaVpp hydrofoil liftTarget speed cdSF optSuccess
        optX).isOk = true ↔
      optSuccess = true ∧
        (objectiveFoilAoa optX hydrofoil speed liftTarget cdSF).1 ≤ 0.1 := by
  cases optSuccess with
  | false => simp [runFoilAoaVpp, Except.isOk, Except.toBool]
  | true =>
    simp only [runFoilAoaVpp]
    rw [if_neg (by simp)]
    split
    · rename_i h
      simp only [Except.isOk, Except.toBool, Bool.false_eq_true, false_iff]
      exact fun hc => absurd hc.2 (not_le.mpr h)
    · rename_i h
      exact ⟨fun _ => ⟨by trivial, not_lt.mp h⟩, fun _ => rfl⟩

/-- Draft stored by set_state. -/
theorem setState_draft (h : Hull) (sink trim : ℝ) :
    (h.setState sink trim).draft = max 0 (-1 * sink) := by
  simp only [Hull.setState, Frame.originInDatum_mk_datum]

/-- C1: at zero draft the submerged cross-section and displaced volume are
zero, and `force_moment` raises ZeroDivisionError when it computes
`Cp = V / (Am * L)` with `Am = 0`, instead of returning zero drag, zero
buoyancy and zero coefficients as the spec requires. -/
theorem hull_zero_draft_force_moment_raises (h : Hull) (speed cdSF : ℝ)
    (hch : 0 ≤ h.chineFraction) (hh : 0 ≤ h.height) :
    (h.setState 0 0).forceMoment speed cdSF =
      Except.error "ZeroDivisionError" := by
  have hdraft : (h.setState 0 0).draft = 0 := by
    rw [setState_draft]
    norm_num
  have hvD : (0 : ℝ) ≤ (h.setState 0 0).vDepth := mul_nonneg hch hh
  have hcross : (h.setState 0 0).submergedCrossSection = 0 := by
    simp only [Hull.submergedCrossSection]
    rw [hdraft, min_eq_left hvD, mul_zero, if_neg (not_lt.mpr hvD)]
  have hden : (h.setState 0 0).submergedCrossSection *
      (h.setState 0 0).length = 0 := by
    rw [hcross, zero_mul]
  have hupd : (h.setState 0 0).updateGeometricParameters =
      Except.error "ZeroDivisionError" := by
    unfold Hull.updateGeometricParameters pydiv
    rw [hden]
    simp [Except.instMonad, Except.bind]
  unfold Hull.forceMoment
  rw [hupd]
  rfl

/-- C1 witness: the spec's scenario hull, just touching the water, raises at
any speed. -/
theorem hull_zero_draft_force_moment_raises_witness :
    (0 ≤ exampleHull.chineFraction ∧ 0 ≤ exampleHull.height) ∧
    (exampleHull.setState 0 0).forceMoment 15 0.002 =
      Except.error "ZeroDivisionError" := by
  have h1 : (0 : ℝ) ≤ exampleHull.chineFraction := by norm_num [exampleHull]
  have h2 : (0 : ℝ) ≤ exampleHull.height := by norm_num [exampleHull]
  exact ⟨⟨h1, h2⟩,
    hull_zero_draft_force_moment_raises exampleHull 15 0.002 h1 h2⟩

/-- Strict monotonicity of the submerged cross-section in the draft, for two
hulls sharing beam and chine depth. -/
theorem submergedCrossSection_lt (h1 h2 : Hull) (hbeam : h1.beam = h2.beam)
    (hv : h1.vDepth = h2.vDepth) (hB : 0 < h2.beam) (hvD : 0 ≤ h2.vDepth)
    (hd0 : 0 ≤ h1.draft) (hd : h1.draft < h2.draft) :
    h1.submergedCrossSection < h2.submergedCrossSection := by
  have hd2 : 0 < h2.draft := lt_of_le_of_lt hd0 hd
  simp only [Hull.submergedCrossSection, Hull.waterplaneBeam]
  rw [hbeam, hv]
  rcases le_or_lt h2.vDepth h1.draft with hc1 | hc1
  · -- chine fully immersed at both drafts
    have hc2 : h2.vDepth ≤ h2.draft := le_of_lt (lt_of_le_of_lt hc1 hd)
    rw [if_pos hc1, if_pos hc2, min_eq_right hc1, min_eq_right hc2,
      if_pos (lt_of_le_of_lt hc1 hd)]
    have hx : 0 < (h2.draft - h1.draft) * h2.beam :=
      mul_pos (sub_pos.mpr hd) hB
    rcases eq_or_lt_of_le hc1 with heq | hlt
    · rw [if_neg (by rw [← heq]; exact lt_irrefl _)]
      nlinarith
    · rw [if_pos hlt]
      nlinarith
  · rcases le_or_lt h2.vDepth h2.draft with hc2 | hc2
    · -- first draft below the chine, second at or above it
      have hvpos : 0 < h2.vDepth := lt_of_le_of_lt hd0 hc1
      rw [if_neg (not_le.mpr hc1), if_pos hc2,
        min_eq_left (le_of_lt hc1), min_eq_right hc2,
        if_neg (not_lt.mpr (le_of_lt hc1))]
      have hkey : 0.5 * (h2.beam * h1.draft / h2.vDepth) * h1.draft <
          0.5 * h2.beam * h2.vDepth := by
        have e1 : 0.5 * (h2.beam * h1.draft / h2.vDepth) * h1.draft =
            0.5 * h2.beam * h1.draft ^ 2 / h2.vDepth := by ring
        have e2 : 0.5 * h2.beam * h2.vDepth =
            0.5 * h2.beam * h2.vDepth ^ 2 / h2.vDepth := by
          field_simp
          ring
        rw [e1, e2]
        have hq : 0 < (h2.vDepth - h1.draft) * (h2.vDepth + h1.draft) :=
          mul_pos (sub_pos.mpr hc1) (by linarith)
        exact div_lt_div_of_pos_right (by nlinarith [mul_pos hB hq]) hvpos
      rcases eq_or_lt_of_le hc2 with heq | hlt
      · rw [if_neg (by rw [heq]; exact lt_irrefl _)]
        exact hkey
      · rw [if_pos hlt]
        have hx : 0 < (h2.draft - h2.vDepth) * h2.beam :=
          mul_pos (sub_pos.mpr hlt) hB
        nlinarith
    · -- both drafts below the chine
      have hvpos : 0 < h2.vDepth := lt_trans hd2 hc2
      rw [if_neg (not_le.mpr (lt_trans hd hc2)), if_neg (not_le.mpr hc2),
        min_eq_left (le_of_lt (lt_trans hd hc2)), min_eq_left (le_of_lt hc2),
        if_neg (not_lt.mpr (le_of_lt (lt_trans hd hc2))),
        if_neg (not_lt.mpr (le_of_lt hc2))]
      have e1 : 0.5 * (h2.beam * h1.draft / h2.vDepth) * h1.draft =
          0.5 * h2.beam * h1.draft ^ 2 / h2.vDepth := by ring
      have e2 : 0.5 * (h2.beam * h2.draft / h2.vDepth) * h2.draft =
          0.5 * h2.beam * h2.draft ^ 2 / h2.vDepth := by ring
      rw [e1, e2]
      have hq : 0 < (h2.draft - h1.draft) * (h2.draft + h1.draft) :=
        mul_pos (sub_pos.mpr hd) (by linarith)
      exact div_lt_div_of_pos_right (by nlinarith [mul_pos hB hq]) hvpos

/-- C7: for a hull with valid parameters held at trim 0, strictly increasing
the sink magnitude (s2 < s1 ≤ 0, down to full submersion -height ≤ s2)
strictly increases the displaced volume and the buoyancy force. -/
theorem hull_buoyancy_strict_mono (h : Hull) (s1 s2 : ℝ)
    (hL : 0 < h.length) (hB : 0 < h.beam) (hH : 0 < h.height)
    (hbow0 : 0 ≤ h.bowFraction) (hbow1 : h.bowFraction ≤ 1)
    (hch0 : 0 ≤ h.chineFraction) (hch1 : h.chineFraction ≤ 1)
    (hs1 : s1 ≤ 0) (hs21 : s2 < s1) (hfull : -h.height ≤ s2) :
    (h.setState s1 0).displacedVolume < (h.setState s2 0).displacedVolume ∧
    (h.setState s1 0).buoyancy < (h.setState s2 0).buoyancy := by
  have hd1 : (h.setState s1 0).draft = -1 * s1 := by
    rw [setState_draft]
    exact max_eq_right (by linarith)
  have hd2 : (h.setState s2 0).draft = -1 * s2 := by
    rw [setState_draft]
    exact max_eq_right (by linarith)
  have hcross : (h.setState s1 0).submergedCrossSection <
      (h.setState s2 0).submergedCrossSection := by
    refine submergedCrossSection_lt _ _ rfl rfl hB (mul_nonneg hch0 hH.le)
      ?_ ?_
    · rw [hd1]; linarith
    · rw [hd1, hd2]; linarith
  have hvol : (h.setState s1 0).displacedVolume <
      (h.setState s2 0).displacedVolume := by
    have hkpos : (0 : ℝ) < 1 - 0.5 * h.bowFraction := by linarith
    exact mul_lt_mul_of_pos_right (mul_lt_mul_of_pos_right hcross hL) hkpos
  refine ⟨hvol, ?_⟩
  exact mul_lt_mul_of_pos_right
    (mul_lt_mul_of_pos_right hvol (by norm_num [WATER_DENSITY]))
    (by norm_num [GRAVITY])

/-- C7 witness: the spec's scenario hull displaces strictly more volume and
receives strictly more buoyancy at sink -2 than at sink -1. -/
theorem hull_buoyancy_strict_mono_witness :
    ((-2 : ℝ) < -1 ∧ (-1 : ℝ) ≤ 0 ∧ -exampleHull.height ≤ -2) ∧
    (exampleHull.setState (-1) 0).displacedVolume <
      (exampleHull.setState (-2) 0).displacedVolume ∧
    (exampleHull.setState (-1) 0).buoyancy <
      (exampleHull.setState (-2) 0).buoyancy := by
  have h := hull_buoyancy_strict_mono exampleHull (-1) (-2)
    (by norm_num [exampleHull]) (by norm_num [exampleHull])
    (by norm_num [exampleHull]) (by norm_num [exampleHull])
    (by norm_num [exampleHull]) (by norm_num [exampleHull])
    (by norm_num [exampleHull]) (by norm_num) (by norm_num)
    (by norm_num [exampleHull])
  exact ⟨⟨by norm_num, by norm_num, by norm_num [exampleHull]⟩, h.1, h.2⟩

/-- Wrench of a fully submerged foil at zero trim: zero lift, pure
skin-friction drag rotated onto the negative x axis. -/
theorem forceMoment_zero_aoa (f : HydroFoil) (speed cdSF : ℝ)
    (hrot : f.frame.rotationInDatum = 0)
    (hdeep : (f.frame.originInDatum).2 ≤ -0.1) :
    (f.forceMoment speed cdSF).fx =
      -(0.5 * cdSF * WATER_DENSITY * f.areaRef * speed ^ 2) ∧
    (f.forceMoment speed cdSF).fz = 0 := by
  have hclip := clip_saturated_deep _ hdeep
  simp only [HydroFoil.forceMoment, Frame.vectorToFrame, Frame.rotationInDatum,
    HydroFoil.computeLift, HydroFoil.computeDrag, HydroFoil.liftCoefficient,
    hclip, hrot, neg_zero, zero_add, add_zero, sub_zero, zero_sub, mul_zero,
    zero_mul, mul_one, zero_div, zero_pow, ne_eq, OfNat.ofNat_ne_zero,
    not_false_eq_true, Real.cos_neg, Real.sin_neg, Real.cos_pi_div_two,
    Real.sin_pi_div_two]
  constructor <;> ring

/-- Error path of structural_mass: when the discriminant is negative the
result is the raised error paired with the foil still at the overridden
trim. -/
theorem structuralMass_result_of_neg (f : HydroFoil) (maxAoA maxSpeed : ℝ)
    (material : Material) (fos scalingFactor shareFrac cdSF : ℝ)
    (hneg : f.sparDiscriminant maxAoA maxSpeed material fos shareFrac
      cdSF < 0) :
    f.structuralMass maxAoA maxSpeed material fos scalingFactor shareFrac
        cdSF =
      (Except.error "Maximum Foil Load Exceeds Geometric Strength Limits",
        f.setLocation (f.getLocation).1 (f.getLocation).2.1 (-maxAoA)) := by
  simp only [HydroFoil.sparDiscriminant] at hneg
  simp only [HydroFoil.structuralMass]
  rw [if_pos hneg]

/-- C2 refuted: when structural_mass raises the structural-infeasibility
error, the foil frame is left at the overridden trim angle (-max_aoa = -0)
instead of being restored to its original rotation 0.3, because the raise
happens before the restoring set_location call. -/
theorem structural_mass_error_path_skips_restore :
    (exampleFoilDeep.structuralMass 0 10 weakMaterial 1 1.8 0 1).1 =
      Except.error "Maximum Foil Load Exceeds Geometric Strength Limits" ∧
    (exampleFoilDeep.structuralMass 0 10 weakMaterial 1 1.8 0
        1).2.frame.location ≠ exampleFoilDeep.frame.location ∧
    (exampleFoilDeep.structuralMass 0 10 weakMaterial 1 1.8 0
        1).2.frame.location.2.2 = -0 ∧
    exampleFoilDeep.frame.location.2.2 = 0.3 := by
  have hrot1 : (exampleFoilDeep.setLocation 0 (-1)
      (-0)).frame.rotationInDatum = 0 := by
    simp [exampleFoilDeep, HydroFoil.setLocation,
      Frame.refFrame, Frame.rotationInDatum]
  have hdeep1 : ((exampleFoilDeep.setLocation 0 (-1)
      (-0)).frame.originInDatum).2 ≤ -0.1 := by
    simp only [exampleFoilDeep, HydroFoil.setLocation,
      Frame.refFrame, Frame.originInDatum_mk_datum]
    norm_num
  have harea1 : (exampleFoilDeep.setLocation 0 (-1) (-0)).areaRef = 1 := by
    simp [exampleFoilDeep, HydroFoil.setLocation,
      HydroFoil.areaRef]
  have hfm := forceMoment_zero_aoa (exampleFoilDeep.setLocation 0 (-1) (-0))
    10 1 hrot1 hdeep1
  rw [harea1] at hfm
  have hfx1 : ((exampleFoilDeep.setLocation 0 (-1) (-0)).forceMoment
      10 1).fx = -51300 := by
    rw [hfm.1]
    norm_num [WATER_DENSITY]
  have hsqrt : Real.sqrt
      (((exampleFoilDeep.setLocation 0 (-1) (-0)).forceMoment 10 1).fx ^ 2 +
       ((exampleFoilDeep.setLocation 0 (-1) (-0)).forceMoment 10 1).fz ^ 2) =
      51300 := by
    rw [hfx1, hfm.2]
    rw [show ((-51300 : ℝ)) ^ 2 + (0 : ℝ) ^ 2 = 51300 ^ 2 by norm_num]
    exact Real.sqrt_sq (by norm_num)
  have hexp : HydroFoil.sparDiscriminant exampleFoilDeep 0 10 weakMaterial
      1 0 1 =
      ((exampleFoilDeep.setLocation 0 (-1) (-0)).thicknessRatio *
        (exampleFoilDeep.setLocation 0 (-1) (-0)).chord) ^ 4 -
      Real.sqrt
          (((exampleFoilDeep.setLocation 0 (-1) (-0)).forceMoment
              10 1).fx ^ 2 +
           ((exampleFoilDeep.setLocation 0 (-1) (-0)).forceMoment
              10 1).fz ^ 2) *
        (exampleFoilDeep.setLocation 0 (-1) (-0)).span / 2 *
        ((exampleFoilDeep.setLocation 0 (-1) (-0)).thicknessRatio *
          (exampleFoilDeep.setLocation 0 (-1) (-0)).chord) * 0.5 * 1 *
        (1 - 0) / weakMaterial.yieldStrength * 12 := rfl
  have hdisc : HydroFoil.sparDiscriminant exampleFoilDeep 0 10 weakMaterial
      1 0 1 < 0 := by
    rw [hexp, hsqrt]
    have hth : (exampleFoilDeep.setLocation 0 (-1) (-0)).thicknessRatio =
        0.1 := rfl
    have hch : (exampleFoilDeep.setLocation 0 (-1) (-0)).chord = 1 := rfl
    have hsp : (exampleFoilDeep.setLocation 0 (-1) (-0)).span = 1 := rfl
    rw [hth, hch, hsp]
    norm_num [weakMaterial]
  have hmain := structuralMass_result_of_neg exampleFoilDeep 0 10
    weakMaterial 1 1.8 0 1 hdisc
  refine ⟨by rw [hmain], ?_, by rw [hmain]; rfl, rfl⟩
  rw [hmain]
  show ((0 : ℝ), (-1 : ℝ), (-0 : ℝ)) ≠ ((0 : ℝ), (-1 : ℝ), (0.3 : ℝ))
  simp only [ne_eq, Prod.mk.injEq, not_and]
  intro _ _
  norm_num

end HydroAnalysis

end
